import Mathlib

/-!
Shallow embedding of `src/main/esp_ot_cli.c`, an OpenThread CLI example for the
ESP32-C6 with two compile-time variants (`CONFIG_DEVICE_TYPE_END_DEVICE` vs the
router/forming default).  The embedding models:

* the data model (`otDeviceRole`, `otOperationalDataset` restricted to the
  components the program touches, `otLinkModeConfig`);
* the per-cycle behaviour of `led_blink_task` as a pure function from the
  logging state and the role sampled under the lock to an event trace;
* one iteration of `uart_read_task` as a function of the read result;
* the role-configuration section of `app_main` (the code executed between
  `esp_openthread_lock_acquire` and `esp_openthread_lock_release`) for both
  variants, as a function from an abstract OpenThread stack state and the
  stack's advisory call results to an event trace and the successor state.

External collaborators (the OpenThread stack, NVS, the LED strip driver, the
UART driver, FreeRTOS) are abstracted as events; the stack's persisted active
dataset and the configuration writes issued against it are tracked in
`OtStackState`.  Fallible stack calls (`otDatasetSetActive`,
`otThreadBecomeLeader`) take their `otError` result as a parameter
(`0 = OT_ERROR_NONE`); `otDatasetGetActive` succeeds exactly when a dataset is
stored.
-/

namespace EspOtCli

/-- The five Thread device roles (`otDeviceRole`):
0 = disabled, 1 = detached, 2 = child, 3 = router, 4 = leader. -/
inductive otDeviceRole where
  | disabled
  | detached
  | child
  | router
  | leader
  deriving DecidableEq

/-- Numeric value of an `otDeviceRole`, as printed by the `%d` log formats. -/
def roleNum : otDeviceRole → Nat
  | .disabled => 0
  | .detached => 1
  | .child => 2
  | .router => 3
  | .leader => 4

/-- An RGB pixel value as passed to `led_strip_set_pixel(strip, 0, r, g, b)`. -/
structure Rgb where
  red : Nat
  green : Nat
  blue : Nat
  deriving DecidableEq

/-- `led_strip_set_pixel(led_strip, 0, 0, 50, 0)` — green. -/
def greenPixel : Rgb := ⟨0, 50, 0⟩

/-- `led_strip_set_pixel(led_strip, 0, 0, 0, 50)` — blue. -/
def bluePixel : Rgb := ⟨0, 0, 50⟩

/-- `led_strip_set_pixel(led_strip, 0, 50, 0, 0)` — red. -/
def redPixel : Rgb := ⟨50, 0, 0⟩

/-- An indicator pattern: pixel colour, on-hold and off-hold in milliseconds. -/
structure IndicatorPattern where
  color : Rgb
  onMs : Nat
  offMs : Nat
  deriving DecidableEq

/-- The role→pattern selection of `led_blink_task` (the `if`/`else if`/`else`
chain on `role`): leader or router blink green 100/100, child blinks blue
200/200, anything else blinks red 500/500. -/
def blinkPattern (role : otDeviceRole) : IndicatorPattern :=
  if role = .leader ∨ role = .router then ⟨greenPixel, 100, 100⟩
  else if role = .child then ⟨bluePixel, 200, 200⟩
  else ⟨redPixel, 500, 500⟩

/-- The role→pattern table of spec §4.3, stated from the spec's own table:
Leader or Router → (green, 100u, 100u); Child → (blue, 200u, 200u);
Disabled / Detached (anything else) → (red, 500u, 500u). -/
def specPatternTable (role : otDeviceRole) : IndicatorPattern :=
  match role with
  | .leader => ⟨greenPixel, 100, 100⟩
  | .router => ⟨greenPixel, 100, 100⟩
  | .child => ⟨bluePixel, 200, 200⟩
  | .disabled => ⟨redPixel, 500, 500⟩
  | .detached => ⟨redPixel, 500, 500⟩

/-- Claim C1: for every one of the five `otDeviceRole` values, the Indicator
Loop's pattern selection is a pure function of the role and equals the table in
spec §4.3 (Leader/Router → green 100/100, Child → blue 200/200, anything else →
red 500/500), and the role sequence [Disabled, Detached, Child, Router, Leader]
yields the pattern sequence [red/500/500, red/500/500, blue/200/200,
green/100/100, green/100/100]. -/
theorem c1_pattern_table :
    (∀ role, blinkPattern role = specPatternTable role) ∧
    [otDeviceRole.disabled, otDeviceRole.detached, otDeviceRole.child,
      otDeviceRole.router, otDeviceRole.leader].map blinkPattern =
      [⟨redPixel, 500, 500⟩, ⟨redPixel, 500, 500⟩, ⟨bluePixel, 200, 200⟩,
        ⟨greenPixel, 100, 100⟩, ⟨greenPixel, 100, 100⟩] := by
  refine ⟨fun role => ?_, by decide⟩
  cases role <;> decide

/-- `otTimestamp`: the active-timestamp sub-record. -/
structure otTimestamp where
  mSeconds : Nat
  mTicks : Nat
  mAuthoritative : Bool
  deriving DecidableEq

/-- `otSecurityPolicy`: rotation interval and the four capability flags the
program sets (`mObtainNetworkKeyEnabled`, `mNativeCommissioningEnabled`,
`mRoutersEnabled`, `mExternalCommissioningEnabled` — the last is abbreviated
`mExtCommissioningEnabled` here). -/
structure otSecurityPolicy where
  mRotationTime : Nat
  mObtainNetworkKeyEnabled : Bool
  mNativeCommissioningEnabled : Bool
  mRoutersEnabled : Bool
  mExtCommissioningEnabled : Bool
  deriving DecidableEq

/-- The `mComponents` presence flags for the eight dataset fields the program
(and the spec's data model) uses.  The remaining optional components of the
real `otOperationalDatasetComponents` (pending timestamp, mesh-local prefix,
delay, PSKc) are never touched by the program — `memset(..., 0, ...)` leaves
them absent — and are outside the spec's data model, so they are omitted. -/
structure otDatasetComponents where
  mIsActiveTimestampPresent : Bool
  mIsNetworkNamePresent : Bool
  mIsPanIdPresent : Bool
  mIsExtendedPanIdPresent : Bool
  mIsNetworkKeyPresent : Bool
  mIsChannelPresent : Bool
  mIsChannelMaskPresent : Bool
  mIsSecurityPolicyPresent : Bool
  deriving DecidableEq

/-- `otOperationalDataset`, restricted to the fields the program touches.  The
`mNetworkName.m8` char buffer is modelled as a `String`; the extended PAN ID
and network key byte arrays as `List Nat`. -/
structure otOperationalDataset where
  mActiveTimestamp : otTimestamp
  mNetworkName : String
  mPanId : Nat
  mExtendedPanId : List Nat
  mNetworkKey : List Nat
  mChannel : Nat
  mChannelMask : Nat
  mSecurityPolicy : otSecurityPolicy
  mComponents : otDatasetComponents
  deriving DecidableEq

/-- The dataset after `memset(&dataset, 0, sizeof(otOperationalDataset))`:
every field zero, every presence flag false. -/
def zeroDataset : otOperationalDataset :=
  { mActiveTimestamp := ⟨0, 0, false⟩
    mNetworkName := ""
    mPanId := 0
    mExtendedPanId := List.replicate 8 0
    mNetworkKey := List.replicate 16 0
    mChannel := 0
    mChannelMask := 0
    mSecurityPolicy := ⟨0, false, false, false, false⟩
    mComponents := ⟨false, false, false, false, false, false, false, false⟩ }

/-- The hardcoded dataset both variants build: `memset` to zero, then the field
assignments of `app_main` (identical literals on the end-device create path and
the router path). -/
def fixedDataset : otOperationalDataset :=
  { zeroDataset with
    mActiveTimestamp := ⟨1, 0, false⟩
    mNetworkName := "OpenThread"
    mPanId := 0x676b
    mExtendedPanId := [0xde, 0xad, 0x00, 0xbe, 0xef, 0x00, 0xca, 0xfe]
    mNetworkKey := [0xc7, 0x16, 0xd0, 0x75, 0x30, 0x43, 0xae, 0x2f,
                    0x5b, 0x63, 0xc7, 0x1e, 0x3e, 0x51, 0xd7, 0xd0]
    mChannel := 11
    mChannelMask := 0x07fff800
    mSecurityPolicy := ⟨672, true, true, true, true⟩
    mComponents := ⟨true, true, true, true, true, true, true, true⟩ }

/-- `otLinkModeConfig` as set on the end-device path. -/
structure otLinkModeConfig where
  mRxOnWhenIdle : Bool
  mDeviceType : Bool
  mNetworkData : Bool
  deriving DecidableEq

/-- The mode `app_main` applies on the end-device path:
`mRxOnWhenIdle = true`, `mDeviceType = false`, `mNetworkData = false`. -/
def endDeviceLinkMode : otLinkModeConfig := ⟨true, false, false⟩

/-- Abstract state of the OpenThread stack collaborator, restricted to what the
program reads or writes: the persisted active dataset, the two enable flags,
and the link-mode / child-timeout / router-eligibility settings. -/
structure OtStackState where
  activeDataset : Option otOperationalDataset
  ip6Enabled : Bool
  threadEnabled : Bool
  linkMode : Option otLinkModeConfig
  childTimeout : Option Nat
  routerEligible : Bool
  deriving DecidableEq

/-- Observable events of the program: calls into the stack, LED, UART and
FreeRTOS collaborators, and log lines. -/
inductive Event where
  | lockAcquire
  | lockRelease
  | roleRead (role : otDeviceRole)
  | ledSetPixel (c : Rgb)
  | ledRefresh
  | ledClear
  | delayMs (ms : Nat)
  | logMsg (s : String)
  | logErr (s : String)
  | logHex (bytes : List Nat)
  | setLinkMode (m : otLinkModeConfig)
  | setChildTimeout (sec : Nat)
  | datasetGetActive (found : Bool)
  | datasetSetActive (d : otOperationalDataset) (result : Nat)
  | ip6SetEnabled (b : Bool)
  | threadSetEnabled (b : Bool)
  | erasePersistentInfo
  | setRouterEligible (b : Bool)
  | becomeLeader (result : Nat)
  | uartSetup
  | uartWrite (bytes : List Nat)
  | taskCreate (name : String)
  deriving DecidableEq

/-- The two build-time device-type variants
(`CONFIG_DEVICE_TYPE_END_DEVICE` set vs unset). -/
inductive DeviceType where
  | endDevice
  | router
  deriving DecidableEq

/-- The `static` logging state of `led_blink_task`:
`log_counter` and `role_printed`. -/
structure LedLogState where
  log_counter : Nat
  role_printed : Bool
  deriving DecidableEq

/-- The variant-dependent logging step of `led_blink_task`: in the end-device
variant, `if (log_counter++ % 50 == 0)` logs the role; in the router variant,
`if (!role_printed && role == OT_DEVICE_ROLE_LEADER)` logs once and latches
`role_printed`. -/
def role_log_step (dt : DeviceType) (st : LedLogState) (role : otDeviceRole) :
    List Event × LedLogState :=
  match dt with
  | .endDevice =>
    ((if st.log_counter % 50 = 0 then
        [Event.logMsg ("Device role: " ++ toString (roleNum role) ++
          " (0=disabled, 1=detached, 2=child, 3=router, 4=leader)")]
      else []),
     { st with log_counter := st.log_counter + 1 })
  | .router =>
    if st.role_printed = false ∧ role = .leader then
      ([Event.logMsg "Device role: 4 (leader)"], { st with role_printed := true })
    else ([], st)

/-- The light-driving tail of a `led_blink_task` cycle: set pixel, refresh,
hold, clear, refresh, hold, with colour and hold times from `blinkPattern`
(the three literal branches of the source share exactly this shape). -/
def blinkEvents (role : otDeviceRole) : List Event :=
  [Event.ledSetPixel (blinkPattern role).color, Event.ledRefresh,
   Event.delayMs (blinkPattern role).onMs,
   Event.ledClear, Event.ledRefresh,
   Event.delayMs (blinkPattern role).offMs]

/-- One iteration of the `while (1)` body of `led_blink_task`: acquire the
OpenThread lock, read the role, release the lock, do the variant-dependent
logging, then drive the LED.  `role` is the value `otThreadGetDeviceRole`
returns this cycle. -/
def led_blink_cycle (dt : DeviceType) (st : LedLogState) (role : otDeviceRole) :
    List Event × LedLogState :=
  ([Event.lockAcquire, Event.roleRead role, Event.lockRelease] ++
     (role_log_step dt st role).1 ++ blinkEvents role,
   (role_log_step dt st role).2)

/-- One iteration of the `while (1)` body of `uart_read_task`: `len` is the
return value of `uart_read_bytes` (2000 ms timeout) and `data` the buffer
contents, whose first `len` bytes were received.  On `len > 0` it logs the
count, hex-dumps the bytes and echoes them back; otherwise it logs a waiting
notice and writes nothing. -/
def uart_read_iteration (len : Int) (data : List Nat) : List Event :=
  if len > 0 then
    [Event.logMsg ("UART received " ++ toString len ++ " bytes:"),
     Event.logHex (data.take len.toNat),
     Event.uartWrite (data.take len.toNat)]
  else
    [Event.logMsg "UART: Waiting for data on GPIO4..."]

/-- The log line following `otDatasetSetActive` on the end-device create path:
success logs an info line, failure logs an error line (and nothing else). -/
def commit_log (result : Nat) : Event :=
  if result = 0 then Event.logMsg "Hardcoded credentials configured and saved"
  else Event.logErr "Failed to set dataset"

/-- The log line following `otDatasetSetActive` on the router path. -/
def router_commit_log (result : Nat) : Event :=
  if result = 0 then Event.logMsg "Hardcoded network credentials configured"
  else Event.logErr "Failed to set dataset"

/-- The log line following `otThreadBecomeLeader` on the router path; both
outcomes are informational. -/
def leader_log (result : Nat) : Event :=
  if result = 0 then Event.logMsg "Forced device to become leader"
  else Event.logMsg "Leader promotion result (will become leader after attach attempts)"

/-- The role-configuration section of `app_main` in the end-device variant
(the code under `#ifdef CONFIG_DEVICE_TYPE_END_DEVICE`, executed while holding
the OpenThread lock): apply the link mode, set the child timeout to 15, then
either auto-join with the stored dataset, or build and commit `fixedDataset`
and start the interface anyway.  `commitResult` is the `otError` that
`otDatasetSetActive` returns when it is called (`0 = OT_ERROR_NONE`). -/
def app_main_end_device (commitResult : Nat) (s : OtStackState) :
    List Event × OtStackState :=
  let s1 := { s with linkMode := some endDeviceLinkMode, childTimeout := some 15 }
  let pre : List Event :=
    [Event.setLinkMode endDeviceLinkMode,
     Event.logMsg "Configured as End Device (Non-sleepy)",
     Event.setChildTimeout 15]
  match s1.activeDataset with
  | some _ =>
    (pre ++
      [Event.datasetGetActive true,
       Event.logMsg "Found stored credentials - auto-joining network",
       Event.ip6SetEnabled true,
       Event.threadSetEnabled true,
       Event.logMsg "Thread interface auto-started with stored credentials",
       Event.taskCreate "led_blink",
       Event.logMsg "LED blink started: slow=disconnected, blue=connected"],
     { s1 with ip6Enabled := true, threadEnabled := true })
  | none =>
    let s2 := if commitResult = 0 then { s1 with activeDataset := some fixedDataset } else s1
    (pre ++
      [Event.datasetGetActive false,
       Event.logMsg "No stored credentials found - configuring hardcoded credentials",
       Event.datasetSetActive fixedDataset commitResult,
       commit_log commitResult,
       Event.ip6SetEnabled true,
       Event.threadSetEnabled true,
       Event.logMsg "Thread interface started - joining network",
       Event.taskCreate "led_blink",
       Event.logMsg "LED blink started: slow=disconnected, blue=connected"],
     { s2 with ip6Enabled := true, threadEnabled := true })

/-- The credentials read-back block at the end of the router path:
`otDatasetGetActive` and, when it succeeds, the diagnostic prints. -/
def creds_print (ds : Option otOperationalDataset) : List Event :=
  match ds with
  | some d =>
    [Event.datasetGetActive true,
     Event.logMsg "=== Network Credentials for Child Devices ===",
     Event.logMsg ("Network Name: " ++ d.mNetworkName),
     Event.logMsg ("PAN ID: " ++ toString d.mPanId),
     Event.logHex d.mExtendedPanId,
     Event.logMsg "Network Key (use on child): ",
     Event.logHex d.mNetworkKey,
     Event.logMsg ("Channel: " ++ toString d.mChannel),
     Event.logMsg "==========================================="]
  | none => [Event.datasetGetActive false]

/-- The role-configuration section of `app_main` in the router/forming variant
(the `#else` branch, executed while holding the OpenThread lock): mark the node
router-eligible, disable the interface and protocol, erase the persisted info,
build and commit `fixedDataset`, enable the interface and protocol, wait
500 ms, issue one `otThreadBecomeLeader`, wait 2000 ms, read back and print
the credentials, then set up the UART and spawn the tasks.  `commitResult` and
`leaderResult` are the `otError` results of `otDatasetSetActive` and
`otThreadBecomeLeader`. -/
def app_main_router (commitResult leaderResult : Nat) (s : OtStackState) :
    List Event × OtStackState :=
  let s1 := { s with routerEligible := true, threadEnabled := false,
                     ip6Enabled := false, activeDataset := none }
  let s2 := if commitResult = 0 then { s1 with activeDataset := some fixedDataset } else s1
  let s3 := { s2 with ip6Enabled := true, threadEnabled := true }
  ([Event.setRouterEligible true,
    Event.logMsg "Configuring router with hardcoded network credentials",
    Event.threadSetEnabled false,
    Event.ip6SetEnabled false,
    Event.erasePersistentInfo,
    Event.logMsg "Cleared existing network data from NVS",
    Event.threadSetEnabled false,
    Event.ip6SetEnabled false,
    Event.datasetSetActive fixedDataset commitResult,
    router_commit_log commitResult,
    Event.ip6SetEnabled true,
    Event.threadSetEnabled true,
    Event.delayMs 500,
    Event.becomeLeader leaderResult,
    leader_log leaderResult,
    Event.logMsg "Configured as Router - Thread interface started with hardcoded credentials",
    Event.delayMs 2000] ++
   creds_print s3.activeDataset ++
   [Event.uartSetup,
    Event.logMsg "UART configured on RX:GPIO4, TX:GPIO5",
    Event.taskCreate "uart_read",
    Event.taskCreate "led_blink",
    Event.logMsg "LED blink: slow=not ready, fast=ready for devices to join"],
   s3)

/-! ### Trace-analysis helpers -/

/-- Is the event an `otDatasetSetActive` call (a dataset commit)? -/
def isCommitEv : Event → Bool
  | .datasetSetActive _ _ => true
  | _ => false

/-- Is the event an `otInstanceErasePersistentInfo` call? -/
def isEraseEv : Event → Bool
  | .erasePersistentInfo => true
  | _ => false

/-- Is the event `otThreadSetEnabled(instance, false)`? -/
def isThreadDisableEv : Event → Bool
  | .threadSetEnabled b => !b
  | _ => false

/-- Is the event `otIp6SetEnabled(instance, false)`? -/
def isIp6DisableEv : Event → Bool
  | .ip6SetEnabled b => !b
  | _ => false

/-- Is the event `otThreadSetEnabled(instance, true)`? -/
def isThreadEnableEv : Event → Bool
  | .threadSetEnabled b => b
  | _ => false

/-- Is the event `otIp6SetEnabled(instance, true)`? -/
def isIp6EnableEv : Event → Bool
  | .ip6SetEnabled b => b
  | _ => false

/-- Is the event an `otThreadBecomeLeader` call? -/
def isBecomeLeaderEv : Event → Bool
  | .becomeLeader _ => true
  | _ => false

/-- Is the event a `vTaskDelay` of exactly `ms` milliseconds? -/
def isDelayOf (ms : Nat) : Event → Bool
  | .delayMs n => n == ms
  | _ => false

/-- Is the event any `vTaskDelay`? -/
def isDelayEv : Event → Bool
  | .delayMs _ => true
  | _ => false

/-- Is the event an `otDatasetGetActive` call? -/
def isGetActiveEv : Event → Bool
  | .datasetGetActive _ => true
  | _ => false

/-- Is the event an LED-strip driver call? -/
def isLightOp : Event → Bool
  | .ledSetPixel _ => true
  | .ledRefresh => true
  | .ledClear => true
  | _ => false

/-- Is the event a lock acquire or release? -/
def isLockOp : Event → Bool
  | .lockAcquire => true
  | .lockRelease => true
  | _ => false

/-- Is the event an `otThreadSetLinkMode` call? -/
def isSetLinkModeEv : Event → Bool
  | .setLinkMode _ => true
  | _ => false

/-- Is the event `otThreadSetChildTimeout(instance, 15)`? -/
def isChildTimeout15Ev : Event → Bool
  | .setChildTimeout n => n == 15
  | _ => false

/-- Is the event an error-level log line? -/
def isLogErrEv : Event → Bool
  | .logErr _ => true
  | _ => false

/-- Does the event write stack configuration (dataset, enables, link mode,
child timeout, router eligibility, persistent-info erase)?  Log lines, delays,
reads, LED/UART/task operations do not. -/
def mutatesStack : Event → Bool
  | .setLinkMode _ => true
  | .setChildTimeout _ => true
  | .datasetSetActive _ _ => true
  | .ip6SetEnabled _ => true
  | .threadSetEnabled _ => true
  | .erasePersistentInfo => true
  | .setRouterEligible _ => true
  | _ => false

/-- `beforeFirst p q t` is true iff some event satisfying `q` occurs in `t`
and an event satisfying `p` occurs strictly before the first such event. -/
def beforeFirst (p q : Event → Bool) : List Event → Bool
  | [] => false
  | e :: t => if q e then false else if p e then t.any q else beforeFirst p q t

/-- `inOrder ps t` is true iff the predicates in `ps` match, in order, some
(greedily chosen) subsequence of `t`. -/
def inOrder : List (Event → Bool) → List Event → Bool
  | [], _ => true
  | _ :: _, [] => false
  | p :: ps, e :: t => if p e then inOrder ps t else inOrder (p :: ps) t

/-- `allAfter p q t` is true iff every event strictly after the first event
satisfying `p` satisfies `q` (vacuously true when no event satisfies `p`). -/
def allAfter (p q : Event → Bool) : List Event → Bool
  | [] => true
  | e :: t => if p e then t.all q else allAfter p q t

/-- `lockSafe held t`: scanning `t` starting with lock state `held`, no LED
operation and no delay ever occurs while the lock is held. -/
def lockSafe : Bool → List Event → Bool
  | _, [] => true
  | _, .lockAcquire :: t => lockSafe true t
  | _, .lockRelease :: t => lockSafe false t
  | held, e :: t => (!(held && (isLightOp e || isDelayEv e))) && lockSafe held t

/-- The datasets passed to `otDatasetSetActive` calls in a trace, in order. -/
def committedDatasets (t : List Event) : List otOperationalDataset :=
  t.filterMap fun e =>
    match e with
    | .datasetSetActive d _ => some d
    | _ => none

/-- The byte strings passed to `uart_write_bytes` calls in a trace, in order. -/
def writtenBytes (t : List Event) : List (List Nat) :=
  t.filterMap fun e =>
    match e with
    | .uartWrite bs => some bs
    | _ => none

/-- All eight presence flags of the dataset are set. -/
def allPresent (d : otOperationalDataset) : Bool :=
  d.mComponents.mIsActiveTimestampPresent && d.mComponents.mIsNetworkNamePresent &&
  d.mComponents.mIsPanIdPresent && d.mComponents.mIsExtendedPanIdPresent &&
  d.mComponents.mIsNetworkKeyPresent && d.mComponents.mIsChannelPresent &&
  d.mComponents.mIsChannelMaskPresent && d.mComponents.mIsSecurityPolicyPresent

/-! ### Concrete initial states used by the witnesses -/

/-- A stack state with no persisted credentials. -/
def st0 : OtStackState := ⟨none, false, false, none, none, false⟩

/-- A stack state whose persisted dataset is `zeroDataset` (deliberately
different from `fixedDataset`). -/
def stStored : OtStackState := ⟨some zeroDataset, false, false, none, none, false⟩

/-! ### Claims about the end-device bootstrap path -/

/-- Statement of claim C2 at a given commit result and initial state: the
end-device path commits exactly `fixedDataset`, whose eight presence flags are
all true and whose fields are the spec §6 literals. -/
def endDeviceCreateCommitsSpec (cr : Nat) (s : OtStackState) : Prop :=
  committedDatasets (app_main_end_device cr s).1 = [fixedDataset] ∧
  allPresent fixedDataset = true ∧
  fixedDataset.mNetworkName = "OpenThread" ∧
  fixedDataset.mPanId = 0x676b ∧
  fixedDataset.mExtendedPanId = [0xde, 0xad, 0x00, 0xbe, 0xef, 0x00, 0xca, 0xfe] ∧
  fixedDataset.mNetworkKey = [0xc7, 0x16, 0xd0, 0x75, 0x30, 0x43, 0xae, 0x2f,
    0x5b, 0x63, 0xc7, 0x1e, 0x3e, 0x51, 0xd7, 0xd0] ∧
  fixedDataset.mChannel = 11 ∧
  fixedDataset.mChannelMask = 0x07fff800 ∧
  fixedDataset.mSecurityPolicy = ⟨672, true, true, true, true⟩ ∧
  fixedDataset.mActiveTimestamp = ⟨1, 0, false⟩

/-- Claim C2: when no persisted credentials are found, the end-device bootstrap
path commits a dataset with every presence flag of the data model's fields true
and with the spec §6 literal values (name "OpenThread", PAN ID 0x676B, the
fixed extended PAN ID and network key bytes, channel 11, channel mask
0x07FFF800, security policy 672 with all four capability flags, active
timestamp 1/0/false), for every commit result. -/
theorem c2_end_device_commits_fixed_literals (cr : Nat) (s : OtStackState)
    (h : s.activeDataset = none) : endDeviceCreateCommitsSpec cr s := by
  refine ⟨?_, by decide, rfl, rfl, rfl, rfl, rfl, rfl, rfl, rfl⟩
  rcases cr with _ | n <;>
    simp [app_main_end_device, h, committedDatasets, commit_log]

/-- Witness for C2: the empty stack state has no persisted credentials, and the
claim holds there with commit result 0. -/
theorem c2_end_device_commits_fixed_literals_witness :
    st0.activeDataset = none ∧ endDeviceCreateCommitsSpec 0 st0 :=
  ⟨rfl, c2_end_device_commits_fixed_literals 0 st0 rfl⟩

/-- Statement of claim C5 at a given commit-result parameter, initial state and
stored dataset: the join path performs no `otDatasetSetActive`, enables IPv6
then Thread, and leaves the stored dataset unmodified. -/
def endDeviceJoinFrameSpec (cr : Nat) (s : OtStackState)
    (d : otOperationalDataset) : Prop :=
  committedDatasets (app_main_end_device cr s).1 = [] ∧
  inOrder [isIp6EnableEv, isThreadEnableEv] (app_main_end_device cr s).1 = true ∧
  (app_main_end_device cr s).2.activeDataset = some d

/-- Claim C5: when persisted credentials are present, the end-device bootstrap
path never calls the dataset commit operation; it enables the IPv6 interface
and the protocol and leaves the stored dataset unmodified. -/
theorem c5_join_path_no_commit (cr : Nat) (s : OtStackState)
    (d : otOperationalDataset) (h : s.activeDataset = some d) :
    endDeviceJoinFrameSpec cr s d := by
  refine ⟨?_, ?_, ?_⟩ <;>
    simp [app_main_end_device, h, committedDatasets, inOrder,
      isIp6EnableEv, isThreadEnableEv]

/-- Witness for C5: a stack state storing `zeroDataset` has persisted
credentials, and the claim holds there. -/
theorem c5_join_path_no_commit_witness :
    stStored.activeDataset = some zeroDataset ∧
    endDeviceJoinFrameSpec 0 stStored zeroDataset :=
  ⟨rfl, c5_join_path_no_commit 0 stStored zeroDataset rfl⟩

/-- Claim C10: on the end-device path the bootstrap sets the child timeout to
15, exactly once, after applying the link mode and before querying the
persisted credentials — hence unconditionally, on both the join branch and the
create/fallback branch — and the final state records child timeout 15. -/
theorem c10_child_timeout_unconditional (cr : Nat) (s : OtStackState) :
    (app_main_end_device cr s).1.countP isChildTimeout15Ev = 1 ∧
    inOrder [isSetLinkModeEv, isChildTimeout15Ev, isGetActiveEv]
      (app_main_end_device cr s).1 = true ∧
    (app_main_end_device cr s).2.childTimeout = some 15 := by
  rcases hds : s.activeDataset with _ | d <;> rcases cr with _ | n <;>
    simp [app_main_end_device, hds, commit_log, inOrder, List.countP_cons,
      isChildTimeout15Ev, isSetLinkModeEv, isGetActiveEv]

/-! ### Claims about the router/forming bootstrap path -/

/-- Claim C3: for every initial persisted state, the forming bootstrap path
disables the protocol and the interface and erases the persisted credentials
before its (single) dataset commit, and the path is idempotent: running it
twice leaves the same final committed state as running it once. -/
theorem c3_forming_erases_then_commits_idempotent (cr lr : Nat)
    (s : OtStackState) :
    beforeFirst isThreadDisableEv isCommitEv (app_main_router cr lr s).1 = true ∧
    beforeFirst isIp6DisableEv isCommitEv (app_main_router cr lr s).1 = true ∧
    beforeFirst isEraseEv isCommitEv (app_main_router cr lr s).1 = true ∧
    (app_main_router cr lr (app_main_router cr lr s).2).2 =
      (app_main_router cr lr s).2 := by
  refine ⟨?_, ?_, ?_, ?_⟩
  · simp [app_main_router, beforeFirst, isThreadDisableEv, isCommitEv,
      isIp6DisableEv, isEraseEv]
  · simp [app_main_router, beforeFirst, isThreadDisableEv, isCommitEv,
      isIp6DisableEv, isEraseEv]
  · simp [app_main_router, beforeFirst, isThreadDisableEv, isCommitEv,
      isIp6DisableEv, isEraseEv]
  · rcases cr with _ | n <;> rfl

/-- Statement of claim C6 at given call results and initial state: on the
forming path and on the end-device create/fallback path alike, the trace
contains exactly one dataset commit, the IPv6-enable and protocol-enable calls
are issued after it, and a non-success commit result produces exactly one
error log line (and nothing else changes). -/
def commitFailureNonfatalSpec (cr lr : Nat) (s : OtStackState) : Prop :=
  (app_main_router cr lr s).1.countP isCommitEv = 1 ∧
  beforeFirst isCommitEv isIp6EnableEv (app_main_router cr lr s).1 = true ∧
  beforeFirst isCommitEv isThreadEnableEv (app_main_router cr lr s).1 = true ∧
  (app_main_end_device cr s).1.countP isCommitEv = 1 ∧
  beforeFirst isCommitEv isIp6EnableEv (app_main_end_device cr s).1 = true ∧
  beforeFirst isCommitEv isThreadEnableEv (app_main_end_device cr s).1 = true ∧
  (app_main_router cr lr s).1.countP isLogErrEv = (if cr = 0 then 0 else 1) ∧
  (app_main_end_device cr s).1.countP isLogErrEv = (if cr = 0 then 0 else 1)

/-- Claim C6: for every result of the dataset commit on the forming path and on
the end-device create/fallback path, a non-success commit result is only
logged (one error line) and the subsequent interface-enable and
protocol-enable calls are still issued; a commit failure never aborts the
bootstrap sequence. -/
theorem c6_commit_failure_nonfatal (cr lr : Nat) (s : OtStackState)
    (h : s.activeDataset = none) : commitFailureNonfatalSpec cr lr s := by
  rcases cr with _ | n <;> rcases lr with _ | m <;>
    simp [commitFailureNonfatalSpec, app_main_router, app_main_end_device, h,
      commit_log, router_commit_log, leader_log, creds_print, beforeFirst,
      List.countP_cons, isCommitEv, isIp6EnableEv, isThreadEnableEv, isLogErrEv]

/-- Witness for C6: the empty stack state has no persisted credentials, and
the claim holds there with a failing commit (result 5) and a failing
leader-promotion request (result 1). -/
theorem c6_commit_failure_nonfatal_witness :
    st0.activeDataset = none ∧ commitFailureNonfatalSpec 5 1 st0 :=
  ⟨rfl, c6_commit_failure_nonfatal 5 1 st0 rfl⟩

/-- Claim C7: on the forming path, the interface- and protocol-enable calls are
followed by a fixed 500 ms delay and then exactly one `otThreadBecomeLeader`
request; for every result of that request the request is never retried, and
after a further fixed 2000 ms delay the committed credentials are re-read; no
event after the promotion request writes any stack configuration. -/
theorem c7_single_leader_promotion (cr lr : Nat) (s : OtStackState) :
    (app_main_router cr lr s).1.countP isBecomeLeaderEv = 1 ∧
    inOrder [isIp6EnableEv, isThreadEnableEv, isDelayOf 500, isBecomeLeaderEv,
      isDelayOf 2000, isGetActiveEv] (app_main_router cr lr s).1 = true ∧
    allAfter isBecomeLeaderEv (fun e => !mutatesStack e)
      (app_main_router cr lr s).1 = true := by
  rcases cr with _ | n <;> rcases lr with _ | m <;>
    simp [app_main_router, router_commit_log, leader_log, creds_print, inOrder,
      allAfter, List.countP_cons, isBecomeLeaderEv, isIp6EnableEv,
      isThreadEnableEv, isDelayOf, isGetActiveEv, mutatesStack]

/-! ### Claims about the indicator loop's logging and lock discipline -/

/-- Counterexample to claim C4 as stated.  The claim says that in the
leader-only configuration variant non-leader roles are logged throttled to one
in every 50 cycles, and that the other variant logs the role on every cycle.
Both fail on the code: in the router (leader-only) variant a cycle observing a
non-leader role at counter 0 — a cycle the claimed 1-in-50 throttle would log —
emits no log at all, and in the end-device variant (the only variant with the
1-in-50 throttle) the cycle at counter 1 emits no log either, so no variant
logs on every cycle. -/
theorem c4_counterexample_logging_variants :
    (role_log_step DeviceType.router ⟨0, false⟩ otDeviceRole.child).1 = [] ∧
    (role_log_step DeviceType.endDevice ⟨1, false⟩ otDeviceRole.child).1 = [] := by
  decide

/-- Claim C4 as amended: in the end-device configuration variant, the Indicator
Loop logs the current role exactly on the cycles whose counter is a multiple of
50 (one line in every 50 cycles, whatever the role), incrementing the counter
each cycle; in the leader-only (router) variant, a cycle logs exactly when the
latch is clear and the role is Leader — so the "became leader" notice is
emitted the first time Leader is observed and suppressed on every later cycle
by the latched boolean, and non-leader roles are never logged. -/
theorem c4_amended_throttle_and_latch (st : LedLogState) (role : otDeviceRole) :
    ((role_log_step DeviceType.endDevice st role).1.length =
      if st.log_counter % 50 = 0 then 1 else 0) ∧
    (role_log_step DeviceType.endDevice st role).2.log_counter =
      st.log_counter + 1 ∧
    ((role_log_step DeviceType.router st role).1.length =
      if st.role_printed = false ∧ role = .leader then 1 else 0) ∧
    (role_log_step DeviceType.router st role).2.role_printed =
      (st.role_printed || role == otDeviceRole.leader) := by
  refine ⟨?_, ?_, ?_, ?_⟩
  · by_cases hc : st.log_counter % 50 = 0 <;> simp [role_log_step, hc]
  · simp [role_log_step]
  · by_cases hp : st.role_printed = false ∧ role = .leader <;>
      simp [role_log_step, hp]
  · rcases hb : st.role_printed <;> cases role <;> simp [role_log_step, hb]

/-- Claim C9: in every cycle of the Indicator Loop — both variants, every
logging state, every observed role — the cycle begins with lock acquire, role
read, lock release; the lock is never held during any LED operation or timed
hold; and no lock operation occurs after the initial release, so the release
precedes the first light operation of the cycle. -/
theorem c9_lock_released_before_light_ops (dt : DeviceType) (st : LedLogState)
    (role : otDeviceRole) :
    (led_blink_cycle dt st role).1.take 3 =
      [Event.lockAcquire, Event.roleRead role, Event.lockRelease] ∧
    lockSafe false (led_blink_cycle dt st role).1 = true ∧
    ((led_blink_cycle dt st role).1.drop 3).all (fun e => !isLockOp e) = true := by
  have hlog : (role_log_step dt st role).1 = [] ∨
      ∃ m, (role_log_step dt st role).1 = [Event.logMsg m] := by
    cases dt
    · by_cases hc : st.log_counter % 50 = 0 <;> simp [role_log_step, hc]
    · by_cases hp : st.role_printed = false ∧ role = .leader <;>
        simp [role_log_step, hp]
  rcases hlog with hlog | ⟨m, hlog⟩ <;> cases role <;>
    simp [led_blink_cycle, hlog, blinkEvents, blinkPattern, lockSafe,
      isLightOp, isDelayEv, isLockOp]

/-! ### Claim about the serial diagnostic echo -/

/-- Claim C8: every iteration of the serial echo writes back exactly the `n`
bytes read when the read returns `n > 0`, and writes nothing when the read
returns zero or a negative count; concretely, input `[0x01, 0x02, 0x03]` is
logged as a 3-byte receipt with a hex dump and echoed back unchanged, while a
zero-byte timeout logs a waiting notice and produces no write. -/
theorem c8_uart_echo (len : Int) (data : List Nat) :
    writtenBytes (uart_read_iteration len data) =
      (if len > 0 then [data.take len.toNat] else []) ∧
    uart_read_iteration 3 [1, 2, 3] =
      [Event.logMsg "UART received 3 bytes:", Event.logHex [1, 2, 3],
       Event.uartWrite [1, 2, 3]] ∧
    uart_read_iteration 0 [0x07] =
      [Event.logMsg "UART: Waiting for data on GPIO4..."] := by
  refine ⟨?_, by decide, by decide⟩
  by_cases hl : len > 0 <;> simp [uart_read_iteration, writtenBytes, hl]

end EspOtCli
